import Mathlib

/-!
Verification of the webpa-common connection-management core against its
specification.  The development shallowly embeds the Go sources:

* `wrp` — the WRP message union type, `SimpleEvent`, and `Entity`
  (from `wrp/messages.go` and `wrp/entity.go`);
* `key` — JWT key types, `TypeFromAlg`, and the caching key resolver
  (from `secure/key/` sources);
* `device` — the Manager/Registry/Device connection core.  The manager
  implementation file is not present in the sources (only its test file is),
  so the `device` definitions are modelled from the specification text and
  are marked as such in their doc comments.

Machine integers are modelled as `Nat`, Go byte slices as `List UInt8`,
Go maps as association lists, and fallible Go functions return
`Option`/`Except` (a Go panic is modelled as `none`).
-/

namespace wrp

/-- Go `wrp.MessageType` is an integer enumeration; its concrete values are
irrelevant to the claims, so it is embedded as `Nat`. -/
abbrev MessageType := Nat

/-- Go `wrp.Format` (msgpack, JSON, ...) is an integer enumeration; embedded
as `Nat`. -/
abbrev Format := Nat

/-- Embeds Go `wrp.Message` (messages.go): the union of all WRP fields, made
optional except for the type.  Go zero values become Lean default field
values; pointer-typed optional fields become `Option`. -/
structure Message where
  msgType : MessageType := 0
  Source : String := ""
  Destination : String := ""
  TransactionUUID : String := ""
  ContentType : String := ""
  Accept : String := ""
  Status : Option Int := none
  RequestDeliveryResponse : Option Int := none
  Headers : List String := []
  Metadata : List (String × String) := []
  Spans : List (List String) := []
  IncludeSpans : Option Bool := none
  Path : String := ""
  Payload : List UInt8 := []
  ServiceName : String := ""
  URL : String := ""
deriving DecidableEq

/-- Embeds Go `(msg *Message) To()`: returns the Destination field. -/
def Message.To (msg : Message) : String :=
  msg.Destination

/-- Embeds Go `(msg *Message) From()`: returns the Source field. -/
def Message.From (msg : Message) : String :=
  msg.Source

/-- Embeds Go `(msg *Message) TransactionKey()`: returns the TransactionUUID
field. -/
def Message.TransactionKey (msg : Message) : String :=
  msg.TransactionUUID

/-- Embeds Go `wrp.SimpleEvent` (messages.go). -/
structure SimpleEvent where
  msgType : MessageType := 0
  Source : String := ""
  Destination : String := ""
  ContentType : String := ""
  Headers : List String := []
  Metadata : List (String × String) := []
  Payload : List UInt8 := []
deriving DecidableEq

/-- Embeds Go `(msg *SimpleEvent) To()`. -/
def SimpleEvent.To (msg : SimpleEvent) : String :=
  msg.Destination

/-- Embeds Go `(msg *SimpleEvent) From()`. -/
def SimpleEvent.From (msg : SimpleEvent) : String :=
  msg.Source

/-- Embeds Go `(msg *SimpleEvent) TransactionKey()`: SimpleEvent has no
transaction_uuid field, so this returns the empty string. -/
def SimpleEvent.TransactionKey (_msg : SimpleEvent) : String :=
  ""

/-- Embeds Go `wrp.Entity` (entity.go): a decoded WRP message together with
the format and original contents it was decoded from.  The tracing spans are
opaque to every claim and are embedded as strings. -/
structure Entity where
  format : Format
  contents : List UInt8
  message : Message
  spans : List String := []
deriving DecidableEq

/-- Embeds Go `(e *Entity) To()`: returns the decoded message's Destination. -/
def Entity.To (e : Entity) : String :=
  e.message.Destination

/-- Embeds Go `(e *Entity) From()`: returns the decoded message's Source. -/
def Entity.From (e : Entity) : String :=
  e.message.Source

/-- Embeds Go `(e *Entity) TransactionKey()`: returns the decoded message's
TransactionUUID. -/
def Entity.TransactionKey (e : Entity) : String :=
  e.message.TransactionUUID

/-- Embeds Go `wrp.DecodeEntityBytes` (entity.go).  The decoder produced by
`NewDecoderBytes` is an external codec collaborator, so it is a parameter
`dec`: the function builds the Entity with the given format and original
contents and fills in the decoded message, failing iff the decoder fails. -/
def DecodeEntityBytes (dec : Format → List UInt8 → Except String Message)
    (f : Format) (c : List UInt8) : Except String Entity :=
  match dec f c with
  | .error err => .error err
  | .ok m => .ok { format := f, contents := c, message := m }

/-- Embeds Go `wrp.EncodeEntityBytes` (entity.go).  The encoder produced by
`NewEncoderBytes` is an external codec collaborator, so it is a parameter
`enc`.  When the entity's contents are already in the requested format and
non-empty, the stored contents buffer is returned without invoking the
encoder; otherwise the message is re-encoded. -/
def EncodeEntityBytes (enc : Format → Message → Except String (List UInt8))
    (e : Entity) (f : Format) : Except String (List UInt8) :=
  if e.format = f ∧ 0 < e.contents.length then
    .ok e.contents
  else
    enc f e.message

end wrp

namespace key

/-- Embeds Go `key.Type` (`type Type int`, with `HMAC`, `RSA`, `EC` as
successive `iota` constants); embedded as `Nat` because `TypeFromAlg` also
returns the out-of-range value `Type(math.MaxUint32)`. -/
abbrev KType := Nat

/-- Go constant `key.HMAC` (iota value 0). -/
def HMAC : KType := 0

/-- Go constant `key.RSA` (iota value 1). -/
def RSA : KType := 1

/-- Go constant `key.EC` (iota value 2). -/
def EC : KType := 2

/-- The value `math.MaxUint32` used by `TypeFromAlg`'s error return. -/
def maxUint32 : Nat := 4294967295

/-- Embeds Go `key.TypeFromAlg` (key.go): switches on the slice expression
`alg[0:2]`.  In Go that slice panics with an out-of-range error whenever
`len(alg) < 2`; the panic is modelled as `none`.  Otherwise the result pairs
the key Type with the optional error message, mirroring Go's two-value
return `(Type, error)`. -/
def TypeFromAlg (alg : String) : Option (KType × Option String) :=
  if alg.length < 2 then
    none
  else
    let p := alg.toList.take 2
    if p = ['H', 'S'] then some (HMAC, none)
    else if p = ['R', 'S'] then some (RSA, none)
    else if p = ['P', 'S'] then some (RSA, none)
    else if p = ['E', 'S'] then some (EC, none)
    else some (maxUint32, some ("Unsupported algorithm: " ++ alg))

/-- The key `Interface` implementation and the `Expired` helper live outside
the given sources; the resolver only observes a cached key's `Type()` and
whether `Expired(key, time.Now())` holds at the moment `tryCache` runs, so a
cached key is embedded as exactly those two observations. -/
structure KeyInterface where
  ktype : KType
  expired : Bool
deriving DecidableEq

/-- The sentinel errors of resolver.go, compared by identity in Go
(`err == errKeyExpired`); endpoint failures carry their message. -/
inductive KeyErr
  | errKeyExpired
  | errMismatchedKeyType
  | endpointError (msg : String)
deriving DecidableEq

/-- The resolver's cache `map[string]Interface`, embedded as an association
list keyed by kid. -/
abbrev Cache := List (String × KeyInterface)

/-- Embeds Go `(r *resolver) tryCache` (resolver.go): looks the kid up in the
cache; on a hit it deletes and reports an expired key (`errKeyExpired`),
rejects a type mismatch (`ErrMismatchedKeyType`), and otherwise returns the
key with a nil error; on a miss it falls through to `return key, nil` with
the nil zero value.  Returns (updated cache, key, error), mirroring the
method's receiver mutation plus its two-value return. -/
def tryCache (cache : Cache) (kt : KType) (kid : String) :
    Cache × Option KeyInterface × Option KeyErr :=
  match cache.lookup kid with
  | none => (cache, none, none)
  | some k =>
      if k.expired then
        (cache.filter (fun p => p.1 != kid), none, some .errKeyExpired)
      else if k.ktype != kt then
        (cache, none, some .errMismatchedKeyType)
      else
        (cache, some k, none)

/-- Embeds Go `(r *resolver) freshenKey` + `fetchKey` (resolver.go) in their
single-caller sequential semantics: the endpoint is invoked; on success the
key is cached under the kid and returned, on failure the error is returned.
The endpoint collaborator's behaviour for this kid is the parameter
`endpoint`.  The final `Bool` records that the fetch endpoint was invoked. -/
def freshenKey (cache : Cache) (endpoint : Except KeyErr KeyInterface)
    (kid : String) : Cache × Option KeyInterface × Option KeyErr × Bool :=
  match endpoint with
  | .ok k => ((kid, k) :: cache, some k, none, true)
  | .error e => (cache, none, some e, true)

/-- Embeds Go `(r *resolver) Key` (resolver.go): tries the cache, and calls
`freshenKey` exactly when `tryCache` reported `errKeyExpired`; every other
outcome of `tryCache` (including the miss, which yields a nil key and nil
error) is returned to the caller unchanged.  The final `Bool` records
whether the fetch endpoint was invoked. -/
def resolverKey (cache : Cache) (kt : KType) (kid : String)
    (endpoint : Except KeyErr KeyInterface) :
    Cache × Option KeyInterface × Option KeyErr × Bool :=
  let r := tryCache cache kt kid
  match r.2.2 with
  | some .errKeyExpired => freshenKey r.1 endpoint kid
  | e => (r.1, r.2.1, e, false)

end key

namespace device

/-!
The `device` package's manager implementation is not among the given sources
(only its test file `device/manager_test.go` is), so the definitions below
are modelled from the specification: §3 (data model), §4.1 (Registry),
§4.3 (Manager operations).  Distinct Device instances may share an
Identifier; instance identity is represented by the `devKey` field, which
the Manager assigns from a monotone counter.
-/

/-- Modelled from the spec: an Identifier is a normalized string-like device
identity (Go `type ID string`). -/
abbrev ID := String

/-- Modelled from the spec: a Connection is an opaque bidirectional transport
handle produced by the connection-factory collaborator. -/
structure Conn where
  handle : String
deriving DecidableEq

/-- Modelled from the spec (§3 Device): identifier fixed at creation, the
owned connection, the monotone one-way closed flag, and the per-device pong
correlation state.  `devKey` distinguishes instances that share an `id`. -/
structure Device where
  id : ID
  conn : Conn
  devKey : Nat
  closed : Bool
  pendingPong : Nat
deriving DecidableEq

/-- Modelled from the spec (§3 Event): the lifecycle event types. -/
inductive EventType
  | Connect
  | Disconnect
  | Pong
  | MessageFailed
deriving DecidableEq

/-- Modelled from the spec (§3 Event): an immutable record of an event type,
the device it concerns, and an optional payload. -/
structure Event where
  etype : EventType
  device : Device
  data : String := ""
deriving DecidableEq

/-- Modelled from the spec (§4.1 findUnique): the tri-state result of a
unique lookup. -/
inductive FindResult
  | notFound
  | found (d : Device)
  | nonUnique
deriving DecidableEq

/-- Modelled from the spec (§3 Registry, §4.1): the Registry is a multi-map
from Identifier to devices; it is embedded as the flat list of registered
Device instances (a device's bucket is the sublist sharing its id). -/
abbrev Registry := List Device

/-- Modelled from the spec (§4.1 findUnique): the single Device under `id`
if exactly one exists, `notFound` if zero, `nonUnique` if more than one. -/
def findUnique (registry : Registry) (id : ID) : FindResult :=
  match registry.filter (fun d => d.id == id) with
  | [] => .notFound
  | [d] => .found d
  | _ => .nonUnique

/-- Modelled from the spec: the Manager's mutable state — the Registry plus
the counter from which fresh device instance keys are drawn. -/
structure ManagerState where
  registry : Registry
  nextKey : Nat
deriving DecidableEq

/-- Modelled from the spec (§4.3 Connect, §7 InvalidContext): the context
error returned when no Identifier is present in the request context. -/
def missingDeviceContext : String := "missing device identifier in request context"

/-- Modelled from the spec (§4.3 Connect): requires an Identifier in the
request context (`ctxID`), failing with the context error if absent; invokes
the connection-factory collaborator (its outcome is the parameter `factory`),
propagating its error without registering anything and without firing any
event; on success constructs a Device, adds it to the Registry (collisions
accumulate, §4.1 add), and fires Event{Connect}.  Returns Go's two-value
`(Device, error)` pair, the successor state, and the events fired. -/
def connect (st : ManagerState) (ctxID : Option ID)
    (factory : Except String Conn) :
    (Option Device × Option String) × ManagerState × List Event :=
  match ctxID with
  | none => ((none, some missingDeviceContext), st, [])
  | some id =>
      match factory with
      | .error e => ((none, some e), st, [])
      | .ok c =>
          let d : Device :=
            { id := id, conn := c, devKey := st.nextKey, closed := false,
              pendingPong := 0 }
          ((some d, none),
           { registry := d :: st.registry, nextKey := st.nextKey + 1 },
           [{ etype := .Connect, device := d }])

/-- Modelled from the spec (§4.3 DisconnectIf): closes every Device whose
Identifier satisfies the predicate, removes each from the Registry, fires
one Event{Disconnect} per closed device (carrying the device in its closed
state, after removal — §5 ordering), and returns how many were closed. -/
def disconnectIf (st : ManagerState) (pred : ID → Bool) :
    Nat × ManagerState × List Event :=
  let hits := st.registry.filter (fun d => pred d.id)
  (hits.length,
   { registry := st.registry.filter (fun d => ! pred d.id),
     nextKey := st.nextKey },
   hits.map (fun d => { etype := .Disconnect, device := { d with closed := true } }))

/-- Modelled from the spec (§4.3 Disconnect): closes all Devices registered
under `id` — the predicate-selected disconnect specialised to that
Identifier.  Zero closed devices is a valid, non-error result. -/
def disconnect (st : ManagerState) (id : ID) : Nat × ManagerState × List Event :=
  disconnectIf st (fun did => did == id)

/-- Modelled from the spec (§2 Event/Listener bus): synchronous fan-out of
one Event to each listener in registration order; the list collects each
listener's return, so the n-th element is the outcome of invoking the n-th
listener with the event. -/
def dispatch {α : Type} (listeners : List (Event → α)) (e : Event) : List α :=
  listeners.map (fun l => l e)

/-- Modelled from the spec (§4.3 pongCallbackFor, §4.2, §9): builds a closure
bound to one Device which, for any pong data, fires Event{Pong} carrying that
device and data to every listener.  Per §9, the handler accepts any pong data
without validating a correlation token against the most recent ping, so the
data argument is used only as the event payload; the liveness-refresh side
effect on the connection read-deadline is not represented. -/
def pongCallbackFor {α : Type} (listeners : List (Event → α)) (d : Device) :
    String → List α :=
  fun data => dispatch listeners { etype := .Pong, device := d, data := data }

/-- Modelled from the spec (§7 error taxonomy for routing). -/
inductive RouteErr
  | invalidDestination
  | deviceNotFound
  | nonUniqueID
  | sendFailed (msg : String)
deriving DecidableEq

/-- Modelled from the spec (§3): a routing Request pairing a message with an
(elided) context. -/
structure Request where
  message : wrp.Message

/-- Modelled from the spec (§3): the Response expected by a routing call. -/
structure Response where
  message : wrp.Message

/-- Modelled from the spec (§4.3 Route): parses the destination Identifier
out of the request's message (the Identifier grammar is left open by the
spec, so the parser is the parameter `parseID`); `invalidDestination` if
unparsable; then mirrors findUnique's tri-state result — `deviceNotFound`
for zero matches, `nonUniqueID` for more than one; with exactly one match,
sends the message to that device (the transport send collaborator is the
parameter `send`) and returns the send's result. -/
def route (st : ManagerState) (parseID : String → Option ID)
    (send : Device → wrp.Message → Except RouteErr Response)
    (req : Request) : Except RouteErr Response :=
  match parseID req.message.Destination with
  | none => .error .invalidDestination
  | some id =>
      match findUnique st.registry id with
      | .notFound => .error .deviceNotFound
      | .nonUnique => .error .nonUniqueID
      | .found d => send d req.message

/-- Modelled from the spec: the Manager operations that mutate registry
state (Route and the visits are read-only). -/
inductive Op
  | connectOp (ctxID : Option ID) (factory : Except String Conn)
  | disconnectOp (id : ID)
  | disconnectIfOp (pred : ID → Bool)

/-- Modelled from the spec: one state transition of the Manager, paired with
the lifecycle events it fires. -/
def step (st : ManagerState) : Op → ManagerState × List Event
  | .connectOp ctxID factory => (connect st ctxID factory).2
  | .disconnectOp id => (disconnect st id).2
  | .disconnectIfOp pred => (disconnectIf st pred).2

/-- Modelled from the spec: the Manager state reached by running a sequence
of operations. -/
def run : ManagerState → List Op → ManagerState
  | st, [] => st
  | st, op :: ops => run (step st op).1 ops

/-- The Manager's registry invariants: every registered instance key is below
the fresh-key counter, instance keys are pairwise distinct (§3 Registry: a
Device appears at most once), and the Registry never contains a closed
Device (§8). -/
def wf (st : ManagerState) : Prop :=
  (∀ d ∈ st.registry, d.devKey < st.nextKey) ∧
  (st.registry.map (fun d => d.devKey)).Nodup ∧
  (∀ d ∈ st.registry, d.closed = false)

instance (st : ManagerState) : Decidable (wf st) := by
  unfold wf; infer_instance

end device

/-- C7: for every wrp.Message and every wrp.Entity, the Routable accessors
return exactly the corresponding stored fields — To() the Destination,
From() the Source, TransactionKey() the TransactionUUID — and for every
wrp.SimpleEvent (which has no transaction field), TransactionKey() returns
the empty string. -/
theorem wrp_routable_accessors (m : wrp.Message) (e : wrp.Entity)
    (se : wrp.SimpleEvent) :
    m.To = m.Destination ∧ m.From = m.Source ∧
      m.TransactionKey = m.TransactionUUID ∧
    e.To = e.message.Destination ∧ e.From = e.message.Source ∧
      e.TransactionKey = e.message.TransactionUUID ∧
    se.To = se.Destination ∧ se.From = se.Source ∧
      se.TransactionKey = "" :=
  ⟨rfl, rfl, rfl, rfl, rfl, rfl, rfl, rfl, rfl⟩

/-- C10: whenever DecodeEntityBytes succeeds on a non-empty byte slice `c`
with format `f`, re-encoding the resulting entity with the same format `f`
succeeds with exactly the original slice `c`, for every encoder — i.e. the
no-op branch is taken and the encoder is never invoked; and only when the
requested format differs from the entity's format, or its contents are
empty, is the message re-encoded through the encoder. -/
theorem wrp_entity_encode_roundtrip
    (dec : wrp.Format → List UInt8 → Except String wrp.Message)
    (enc : wrp.Format → wrp.Message → Except String (List UInt8))
    (f : wrp.Format) (c : List UInt8) (e : wrp.Entity) :
    (c ≠ [] → wrp.DecodeEntityBytes dec f c = .ok e →
      wrp.EncodeEntityBytes enc e f = .ok c)
    ∧ ((¬ e.format = f ∨ e.contents = []) →
      wrp.EncodeEntityBytes enc e f = enc f e.message) := by
  constructor
  · intro hc hdec
    unfold wrp.DecodeEntityBytes at hdec
    cases hdm : dec f c with
    | error err => rw [hdm] at hdec; exact absurd hdec (by simp)
    | ok m =>
        rw [hdm] at hdec
        injection hdec with h
        subst h
        simp [wrp.EncodeEntityBytes, List.length_pos_iff_ne_nil.mpr hc]
  · intro h
    unfold wrp.EncodeEntityBytes
    rw [if_neg]
    rintro ⟨h1, h2⟩
    rcases h with h | h
    · exact h h1
    · rw [h] at h2; exact absurd h2 (by simp)

/-- C10 witness: decoding the one-byte slice [7] with a decoder that accepts
it, then re-encoding with the same format, yields exactly [7] even under an
encoder that always fails. -/
theorem wrp_entity_encode_roundtrip_witness :
    wrp.EncodeEntityBytes (fun _ _ => .error "encoder invoked")
      { format := 3, contents := [7], message := {} } 3 = .ok [7] :=
  (wrp_entity_encode_roundtrip (fun _ _ => .ok {})
      (fun _ _ => .error "encoder invoked") 3 [7]
      { format := 3, contents := [7], message := {} }).1 (by decide) rfl

/-- C8: for a key id absent from the cache, resolver.Key returns a nil key
and a nil error, leaves the cache unchanged, and never invokes the fetch
endpoint: tryCache yields (nil, nil) on the miss, and Key only takes the
freshenKey path when tryCache reports errKeyExpired. -/
theorem key_resolver_uncached_returns_nil (cache : key.Cache) (kt : key.KType)
    (kid : String) (endpoint : Except key.KeyErr key.KeyInterface)
    (h : cache.lookup kid = none) :
    key.resolverKey cache kt kid endpoint = (cache, none, none, false) := by
  unfold key.resolverKey key.tryCache
  rw [h]

/-- C8 witness: resolving an uncached kid against the empty cache returns
(nil key, nil error), leaves the cache empty and does not touch the
endpoint. -/
theorem key_resolver_uncached_returns_nil_witness :
    key.resolverKey [] key.HMAC "kid1" (.error (.endpointError "boom"))
      = ([], none, none, false) :=
  key_resolver_uncached_returns_nil [] key.HMAC "kid1"
    (.error (.endpointError "boom")) rfl

/-- C9: TypeFromAlg inspects only the first two characters of its argument,
mapping "HS" to HMAC, "RS" and "PS" to RSA, "ES" to EC, and any other
two-character head to the error result with Type(math.MaxUint32); for every
input of length 0 or 1 the slice expression alg[0:2] is out of range and the
call panics (modelled as `none`) instead of returning an error. -/
theorem key_typeFromAlg_head_chars (alg other : String) :
    (alg.length < 2 → key.TypeFromAlg alg = none)
    ∧ (2 ≤ alg.length →
        (alg.toList.take 2 = ['H', 'S'] →
          key.TypeFromAlg alg = some (key.HMAC, none))
        ∧ (alg.toList.take 2 = ['R', 'S'] →
          key.TypeFromAlg alg = some (key.RSA, none))
        ∧ (alg.toList.take 2 = ['P', 'S'] →
          key.TypeFromAlg alg = some (key.RSA, none))
        ∧ (alg.toList.take 2 = ['E', 'S'] →
          key.TypeFromAlg alg = some (key.EC, none))
        ∧ (alg.toList.take 2 ∉ [['H', 'S'], ['R', 'S'], ['P', 'S'], ['E', 'S']] →
          key.TypeFromAlg alg
            = some (key.maxUint32, some ("Unsupported algorithm: " ++ alg)))
        ∧ (2 ≤ other.length → alg.toList.take 2 = other.toList.take 2 →
          (key.TypeFromAlg alg).map Prod.fst
            = (key.TypeFromAlg other).map Prod.fst)) := by
  constructor
  · intro h
    unfold key.TypeFromAlg
    rw [if_pos h]
  · intro hlen
    have ha : ¬ alg.length < 2 := not_lt.mpr hlen
    refine ⟨?_, ?_, ?_, ?_, ?_, ?_⟩
    · intro h
      have hd : List.take 2 alg.data = ['H', 'S'] := h
      simp [key.TypeFromAlg, ha, hd]
    · intro h
      have hd : List.take 2 alg.data = ['R', 'S'] := h
      have hd1 : ¬ List.take 2 alg.data = ['H', 'S'] := by simp [hd]
      simp [key.TypeFromAlg, ha, hd, hd1]
    · intro h
      have hd : List.take 2 alg.data = ['P', 'S'] := h
      have hd1 : ¬ List.take 2 alg.data = ['H', 'S'] := by simp [hd]
      have hd2 : ¬ List.take 2 alg.data = ['R', 'S'] := by simp [hd]
      simp [key.TypeFromAlg, ha, hd, hd1, hd2]
    · intro h
      have hd : List.take 2 alg.data = ['E', 'S'] := h
      have hd1 : ¬ List.take 2 alg.data = ['H', 'S'] := by simp [hd]
      have hd2 : ¬ List.take 2 alg.data = ['R', 'S'] := by simp [hd]
      have hd3 : ¬ List.take 2 alg.data = ['P', 'S'] := by simp [hd]
      simp [key.TypeFromAlg, ha, hd, hd1, hd2, hd3]
    · intro h
      simp only [List.mem_cons, List.not_mem_nil, or_false, not_or] at h
      obtain ⟨h1, h2, h3, h4⟩ := h
      have hd1 : ¬ List.take 2 alg.data = ['H', 'S'] := h1
      have hd2 : ¬ List.take 2 alg.data = ['R', 'S'] := h2
      have hd3 : ¬ List.take 2 alg.data = ['P', 'S'] := h3
      have hd4 : ¬ List.take 2 alg.data = ['E', 'S'] := h4
      simp [key.TypeFromAlg, ha, hd1, hd2, hd3, hd4]
    · intro ho hpeq
      have hb : ¬ other.length < 2 := not_lt.mpr ho
      have hpd : List.take 2 alg.data = List.take 2 other.data := hpeq
      simp only [key.TypeFromAlg, String.toList]
      rw [if_neg ha, if_neg hb]
      simp only [hpd]
      by_cases h1 : List.take 2 other.data = ['H', 'S']
      · simp [h1]
      · by_cases h2 : List.take 2 other.data = ['R', 'S']
        · simp [h1, h2]
        · by_cases h3 : List.take 2 other.data = ['P', 'S']
          · simp [h1, h2, h3]
          · by_cases h4 : List.take 2 other.data = ['E', 'S']
            · simp [h1, h2, h3, h4]
            · simp [h1, h2, h3, h4]

/-- C9 witness: "HS256" resolves to HMAC, the unsupported "no" yields the
MaxUint32 error type, and the one-character input "H" panics (none). -/
theorem key_typeFromAlg_head_chars_witness :
    key.TypeFromAlg "H" = none
    ∧ key.TypeFromAlg "HS256" = some (key.HMAC, none)
    ∧ key.TypeFromAlg "no" = some (key.maxUint32, some "Unsupported algorithm: no") :=
  ⟨(key_typeFromAlg_head_chars "H" "H").1 (by decide),
   ((key_typeFromAlg_head_chars "HS256" "HS256").2 (by decide)).1 (by decide),
   ((key_typeFromAlg_head_chars "no" "no").2 (by decide)).2.2.2.2.1 (by decide)⟩

/-- C2: Manager.Connect with no Identifier in the request context fails with
the context error and a nil Device; and when the connection factory fails,
Connect returns exactly the factory's error with a nil Device, registers
nothing (the state is unchanged), and fires no lifecycle Event. -/
theorem manager_connect_failures (st : device.ManagerState)
    (factory : Except String device.Conn) (e : String) (id : device.ID) :
    device.connect st none factory
      = ((none, some device.missingDeviceContext), st, [])
    ∧ device.connect st (some id) (.error e) = ((none, some e), st, []) :=
  ⟨rfl, rfl⟩

/-- C5: the closure built by pongCallbackFor for a device `d`, when invoked
with any pong data `s`, invokes every registered listener — in registration
order, once each — with an Event of type Pong whose Device field is exactly
`d` and whose Data field is exactly `s`; no condition relates `s` to any
outstanding ping. -/
theorem manager_pong_callback (α : Type) (listeners : List (device.Event → α))
    (d : device.Device) (s : String) :
    device.pongCallbackFor listeners d s
      = listeners.map (fun l => l { etype := .Pong, device := d, data := s })
    ∧ (device.pongCallbackFor listeners d s).length = listeners.length
    ∧ (∀ l ∈ listeners,
        l { etype := .Pong, device := d, data := s }
          ∈ device.pongCallbackFor listeners d s) := by
  refine ⟨rfl, by simp [device.pongCallbackFor, device.dispatch], ?_⟩
  intro l hl
  exact List.mem_map.mpr ⟨l, hl, rfl⟩

/-- C5 witness: a listener projecting the event payload, registered alone,
is invoked with the pong data "pong data" bound to the concrete device. -/
theorem manager_pong_callback_witness :
    (fun e : device.Event => e.data)
        { etype := .Pong,
          device := { id := "mac:112233445566", conn := { handle := "c" },
                      devKey := 0, closed := false, pendingPong := 0 },
          data := "pong data" }
      ∈ device.pongCallbackFor [fun e : device.Event => e.data]
          { id := "mac:112233445566", conn := { handle := "c" },
            devKey := 0, closed := false, pendingPong := 0 } "pong data" :=
  (manager_pong_callback String [fun e : device.Event => e.data]
      { id := "mac:112233445566", conn := { handle := "c" },
        devKey := 0, closed := false, pendingPong := 0 } "pong data").2.2
    (fun e : device.Event => e.data) (List.mem_singleton.mpr rfl)

/-- C1: Manager.Route resolves the destination Identifier of the request's
message against the registry and returns exactly one of four outcomes:
ErrorInvalidDestination (the error side carries no response) when the
destination is unparsable; ErrorDeviceNotFound when zero devices are
registered under the Identifier; ErrorNonUniqueID when two or more are
(never silently picking one); and, with exactly one matching device, the
result of sending the message to that device. -/
theorem manager_route_outcomes (st : device.ManagerState)
    (parseID : String → Option device.ID)
    (send : device.Device → wrp.Message → Except device.RouteErr device.Response)
    (req : device.Request) :
    (parseID req.message.Destination = none →
      device.route st parseID send req = .error .invalidDestination)
    ∧ (∀ id, parseID req.message.Destination = some id →
        (st.registry.filter (fun d => d.id == id) = [] →
          device.route st parseID send req = .error .deviceNotFound)
        ∧ (2 ≤ (st.registry.filter (fun d => d.id == id)).length →
          device.route st parseID send req = .error .nonUniqueID)
        ∧ (∀ d, st.registry.filter (fun d0 => d0.id == id) = [d] →
          device.route st parseID send req = send d req.message)) := by
  refine ⟨?_, ?_⟩
  · intro h
    simp only [device.route, h]
  · intro id hid
    refine ⟨?_, ?_, ?_⟩
    · intro hf
      simp only [device.route, hid, device.findUnique, hf]
    · intro hlen
      rcases hfe : st.registry.filter (fun d => d.id == id) with _ | ⟨a, t⟩
      · rw [hfe] at hlen; simp at hlen
      · rcases t with _ | ⟨b, t2⟩
        · rw [hfe] at hlen; simp at hlen
        · simp only [device.route, hid, device.findUnique, hfe]
    · intro d hf
      simp only [device.route, hid, device.findUnique, hf]

/-- C1 witness: with two devices registered under the same Identifier, Route
fails deterministically with nonUniqueID. -/
theorem manager_route_outcomes_witness :
    device.route
        { registry :=
            [{ id := "mac:112233445566", conn := { handle := "c1" },
               devKey := 0, closed := false, pendingPong := 0 },
             { id := "mac:112233445566", conn := { handle := "c2" },
               devKey := 1, closed := false, pendingPong := 0 }],
          nextKey := 2 }
        (fun s => if s = "mac:112233445566" then some "mac:112233445566" else none)
        (fun _ _ => .error (.sendFailed "unused"))
        { message := { Destination := "mac:112233445566" } }
      = .error .nonUniqueID :=
  ((manager_route_outcomes
        { registry :=
            [{ id := "mac:112233445566", conn := { handle := "c1" },
               devKey := 0, closed := false, pendingPong := 0 },
             { id := "mac:112233445566", conn := { handle := "c2" },
               devKey := 1, closed := false, pendingPong := 0 }],
          nextKey := 2 }
        (fun s => if s = "mac:112233445566" then some "mac:112233445566" else none)
        (fun _ _ => .error (.sendFailed "unused"))
        { message := { Destination := "mac:112233445566" } }).2
      "mac:112233445566" (by decide)).2.1 (by decide)

/-- C3: Manager.Disconnect(id) closes every Device currently registered
under id, fires one Disconnect event per closed device, and returns exactly
the number of devices it closed; Disconnect of an unregistered id returns
count 0, changes nothing, and is not an error. -/
theorem manager_disconnect_count (st : device.ManagerState) (id : device.ID) :
    (device.disconnect st id).1 = (st.registry.filter (fun d => d.id == id)).length
    ∧ (∀ d ∈ st.registry, d.id = id →
        ({ etype := .Disconnect, device := { d with closed := true } } : device.Event)
          ∈ (device.disconnect st id).2.2)
    ∧ (∀ e ∈ (device.disconnect st id).2.2,
        e.etype = .Disconnect ∧ e.device.closed = true ∧ e.device.id = id)
    ∧ (device.disconnect st id).2.2.length
        = (st.registry.filter (fun d => d.id == id)).length
    ∧ (st.registry.filter (fun d => d.id == id) = [] →
        device.disconnect st id = (0, st, [])) := by
  refine ⟨rfl, ?_, ?_, ?_, ?_⟩
  · intro d hd hdid
    have hmem : d ∈ st.registry.filter (fun x => x.id == id) := by
      simp [List.mem_filter, hd, hdid]
    exact List.mem_map.mpr ⟨d, hmem, rfl⟩
  · intro e he
    obtain ⟨d, hd, rfl⟩ := List.mem_map.mp he
    refine ⟨rfl, rfl, ?_⟩
    have hp := (List.mem_filter.mp hd).2
    simpa using hp
  · simp [device.disconnect, device.disconnectIf]
  · intro hf
    obtain ⟨reg, nk⟩ := st
    have hall : ∀ d ∈ reg, (d.id == id) = false := by
      intro d hd
      simpa using List.filter_eq_nil_iff.mp hf d hd
    have hkeep : reg.filter (fun d => ! (d.id == id)) = reg :=
      List.filter_eq_self.mpr (by intro d hd; simp [hall d hd])
    simp only [device.disconnect, device.disconnectIf]
    rw [hf, hkeep]
    simp

/-- C3 witness: disconnecting an id with exactly one registered device
returns count 1 with that device's Disconnect event, and disconnecting an id
with no registered devices returns count 0 with nothing changed. -/
theorem manager_disconnect_count_witness :
    (device.disconnect
        { registry :=
            [{ id := "mac:112233445566", conn := { handle := "c1" },
               devKey := 0, closed := false, pendingPong := 0 }],
          nextKey := 1 } "mac:112233445566").1 = 1
    ∧ device.disconnect
        { registry :=
            [{ id := "mac:112233445566", conn := { handle := "c1" },
               devKey := 0, closed := false, pendingPong := 0 }],
          nextKey := 1 } "nosuch"
      = (0,
         { registry :=
             [{ id := "mac:112233445566", conn := { handle := "c1" },
                devKey := 0, closed := false, pendingPong := 0 }],
           nextKey := 1 }, []) :=
  ⟨by
    rw [(manager_disconnect_count
        { registry :=
            [{ id := "mac:112233445566", conn := { handle := "c1" },
               devKey := 0, closed := false, pendingPong := 0 }],
          nextKey := 1 } "mac:112233445566").1]
    decide,
   (manager_disconnect_count
        { registry :=
            [{ id := "mac:112233445566", conn := { handle := "c1" },
               devKey := 0, closed := false, pendingPong := 0 }],
          nextKey := 1 } "nosuch").2.2.2.2 (by decide)⟩

/-- C4: Manager.DisconnectIf with a predicate false for every Identifier
returns count 0 and closes nothing (no Disconnect event fires, the state is
unchanged); with a predicate true for every Identifier it closes every
connected device, and — when instance keys are distinct, as the Manager
maintains — each closed device fires exactly one Disconnect event. -/
theorem manager_disconnectIf_predicate (st : device.ManagerState)
    (pred : device.ID → Bool) :
    ((∀ i, pred i = false) → device.disconnectIf st pred = (0, st, []))
    ∧ ((∀ i, pred i = true) →
        (device.disconnectIf st pred).1 = st.registry.length
        ∧ (device.disconnectIf st pred).2.1.registry = []
        ∧ (device.disconnectIf st pred).2.2.length = st.registry.length
        ∧ (∀ e ∈ (device.disconnectIf st pred).2.2,
            e.etype = .Disconnect ∧ e.device.closed = true)
        ∧ ((st.registry.map (fun d => d.devKey)).Nodup →
            ∀ d ∈ st.registry,
              ((device.disconnectIf st pred).2.2.filter
                  (fun e => e.device.devKey == d.devKey)).length = 1)) := by
  constructor
  · intro hfalse
    obtain ⟨reg, nk⟩ := st
    have h1 : reg.filter (fun d => pred d.id) = [] :=
      List.filter_eq_nil_iff.mpr (by intro d hd; simp [hfalse d.id])
    have h2 : reg.filter (fun d => ! pred d.id) = reg :=
      List.filter_eq_self.mpr (by intro d hd; simp [hfalse d.id])
    simp only [device.disconnectIf]
    rw [h1, h2]
    simp
  · intro htrue
    have h1 : st.registry.filter (fun d => pred d.id) = st.registry :=
      List.filter_eq_self.mpr (by intro d hd; simp [htrue d.id])
    have h2 : st.registry.filter (fun d => ! pred d.id) = [] :=
      List.filter_eq_nil_iff.mpr (by intro d hd; simp [htrue d.id])
    refine ⟨?_, ?_, ?_, ?_, ?_⟩
    · simp only [device.disconnectIf]
      rw [h1]
    · simp only [device.disconnectIf]
      rw [h2]
    · simp only [device.disconnectIf]
      rw [h1]
      simp
    · intro e he
      simp only [device.disconnectIf] at he
      obtain ⟨d, hd, rfl⟩ := List.mem_map.mp he
      exact ⟨rfl, rfl⟩
    · intro hnodup d hd
      simp only [device.disconnectIf]
      rw [h1]
      have hcomp : ((fun e : device.Event => e.device.devKey == d.devKey) ∘
          (fun d0 : device.Device =>
            ({ etype := .Disconnect, device := { d0 with closed := true } } : device.Event)))
          = fun d0 : device.Device => d0.devKey == d.devKey := rfl
      rw [List.filter_map, List.length_map, hcomp, ← List.countP_eq_length_filter]
      have hmapc : List.countP (fun d0 : device.Device => d0.devKey == d.devKey) st.registry
          = List.countP (fun k => k == d.devKey)
              (st.registry.map (fun d0 => d0.devKey)) := by
        rw [List.countP_map]
        rfl
      rw [hmapc, ← List.count_eq_countP]
      exact List.count_eq_one_of_mem hnodup (List.mem_map.mpr ⟨d, hd, rfl⟩)

/-- C4 witness: over a two-device registry with distinct instance keys, the
always-false predicate closes nothing and the always-true predicate closes
both devices with exactly one Disconnect event for the first device. -/
theorem manager_disconnectIf_predicate_witness :
    device.disconnectIf
        { registry :=
            [{ id := "mac:112233445566", conn := { handle := "c1" },
               devKey := 0, closed := false, pendingPong := 0 },
             { id := "mac:7f551928abcd", conn := { handle := "c2" },
               devKey := 1, closed := false, pendingPong := 0 }],
          nextKey := 2 } (fun _ => false)
      = (0,
         { registry :=
             [{ id := "mac:112233445566", conn := { handle := "c1" },
                devKey := 0, closed := false, pendingPong := 0 },
              { id := "mac:7f551928abcd", conn := { handle := "c2" },
                devKey := 1, closed := false, pendingPong := 0 }],
           nextKey := 2 }, [])
    ∧ (device.disconnectIf
        { registry :=
            [{ id := "mac:112233445566", conn := { handle := "c1" },
               devKey := 0, closed := false, pendingPong := 0 },
             { id := "mac:7f551928abcd", conn := { handle := "c2" },
               devKey := 1, closed := false, pendingPong := 0 }],
          nextKey := 2 } (fun _ => true)).1 = 2
    ∧ ((device.disconnectIf
        { registry :=
            [{ id := "mac:112233445566", conn := { handle := "c1" },
               devKey := 0, closed := false, pendingPong := 0 },
             { id := "mac:7f551928abcd", conn := { handle := "c2" },
               devKey := 1, closed := false, pendingPong := 0 }],
          nextKey := 2 } (fun _ => true)).2.2.filter
        (fun e => e.device.devKey == 0)).length = 1 :=
  ⟨(manager_disconnectIf_predicate
      { registry :=
          [{ id := "mac:112233445566", conn := { handle := "c1" },
             devKey := 0, closed := false, pendingPong := 0 },
           { id := "mac:7f551928abcd", conn := { handle := "c2" },
             devKey := 1, closed := false, pendingPong := 0 }],
        nextKey := 2 } (fun _ => false)).1 (fun _ => rfl),
   by
    rw [((manager_disconnectIf_predicate
        { registry :=
            [{ id := "mac:112233445566", conn := { handle := "c1" },
               devKey := 0, closed := false, pendingPong := 0 },
             { id := "mac:7f551928abcd", conn := { handle := "c2" },
               devKey := 1, closed := false, pendingPong := 0 }],
          nextKey := 2 } (fun _ => true)).2 (fun _ => rfl)).1]
    decide,
   ((manager_disconnectIf_predicate
        { registry :=
            [{ id := "mac:112233445566", conn := { handle := "c1" },
               devKey := 0, closed := false, pendingPong := 0 },
             { id := "mac:7f551928abcd", conn := { handle := "c2" },
               devKey := 1, closed := false, pendingPong := 0 }],
          nextKey := 2 } (fun _ => true)).2 (fun _ => rfl)).2.2.2.2 (by decide)
     { id := "mac:112233445566", conn := { handle := "c1" },
       devKey := 0, closed := false, pendingPong := 0 } (by decide)⟩

/-- Any instance key present after a step was either present before it or is
the fresh key the step's Connect drew from the counter. -/
theorem device.step_key_mem (st : device.ManagerState) (op : device.Op) (k : Nat)
    (h : k ∈ (device.step st op).1.registry.map (fun d => d.devKey)) :
    k ∈ st.registry.map (fun d => d.devKey) ∨ k = st.nextKey := by
  cases op with
  | connectOp ctxID factory =>
      cases ctxID with
      | none => exact .inl h
      | some id =>
          cases factory with
          | error e => exact .inl h
          | ok c =>
              rcases List.mem_map.mp h with ⟨d, hd, rfl⟩
              rcases List.mem_cons.mp hd with h1 | h1
              · subst h1; exact .inr rfl
              · exact .inl (List.mem_map.mpr ⟨d, h1, rfl⟩)
  | disconnectOp id =>
      rcases List.mem_map.mp h with ⟨d, hd, rfl⟩
      exact .inl (List.mem_map.mpr ⟨d, List.mem_of_mem_filter hd, rfl⟩)
  | disconnectIfOp pred =>
      rcases List.mem_map.mp h with ⟨d, hd, rfl⟩
      exact .inl (List.mem_map.mpr ⟨d, List.mem_of_mem_filter hd, rfl⟩)

/-- The fresh-key counter never decreases across a step. -/
theorem device.step_nextKey_le (st : device.ManagerState) (op : device.Op) :
    st.nextKey ≤ (device.step st op).1.nextKey := by
  cases op with
  | connectOp ctxID factory =>
      cases ctxID with
      | none => exact le_refl _
      | some id =>
          cases factory with
          | error e => exact le_refl _
          | ok c => exact Nat.le_succ _
  | disconnectOp id => exact le_refl _
  | disconnectIfOp pred => exact le_refl _

/-- An instance key below the counter that is absent from the Registry never
reappears in any later reachable Registry: removal is permanent because
Connect only ever assigns fresh keys. -/
theorem device.run_key_absent (k : Nat) :
    ∀ (ops : List device.Op) (st : device.ManagerState),
      k < st.nextKey → k ∉ st.registry.map (fun d => d.devKey) →
      k ∉ (device.run st ops).registry.map (fun d => d.devKey) := by
  intro ops
  induction ops with
  | nil => intro st _ h2; exact h2
  | cons op ops ih =>
      intro st h1 h2
      refine ih (device.step st op).1
        (lt_of_lt_of_le h1 (device.step_nextKey_le st op)) ?_
      intro hmem
      rcases device.step_key_mem st op k hmem with h | h
      · exact h2 h
      · exact lt_irrefl st.nextKey (h ▸ h1)

/-- Every step preserves the Manager's registry invariants. -/
theorem device.wf_step (st : device.ManagerState) (op : device.Op)
    (h : device.wf st) : device.wf (device.step st op).1 := by
  obtain ⟨hlt, hnodup, hopen⟩ := h
  cases op with
  | connectOp ctxID factory =>
      cases ctxID with
      | none => exact ⟨hlt, hnodup, hopen⟩
      | some id =>
          cases factory with
          | error e => exact ⟨hlt, hnodup, hopen⟩
          | ok c =>
              refine ⟨?_, ?_, ?_⟩
              · intro d hd
                rcases List.mem_cons.mp hd with h1 | h1
                · subst h1; exact Nat.lt_succ_self _
                · exact Nat.lt_succ_of_lt (hlt d h1)
              · refine List.nodup_cons.mpr ⟨?_, hnodup⟩
                intro hmem
                rcases List.mem_map.mp hmem with ⟨d, hd, hk⟩
                exact absurd (hlt d hd) (by rw [hk]; exact lt_irrefl _)
              · intro d hd
                rcases List.mem_cons.mp hd with h1 | h1
                · subst h1; rfl
                · exact hopen d h1
  | disconnectOp id =>
      refine ⟨?_, ?_, ?_⟩
      · intro d hd; exact hlt d (List.mem_of_mem_filter hd)
      · exact ((List.filter_sublist st.registry).map (fun d => d.devKey)).nodup hnodup
      · intro d hd; exact hopen d (List.mem_of_mem_filter hd)
  | disconnectIfOp pred =>
      refine ⟨?_, ?_, ?_⟩
      · intro d hd; exact hlt d (List.mem_of_mem_filter hd)
      · exact ((List.filter_sublist st.registry).map (fun d => d.devKey)).nodup hnodup
      · intro d hd; exact hopen d (List.mem_of_mem_filter hd)

/-- The registry invariants hold in every state reachable from a
well-formed one. -/
theorem device.wf_run : ∀ (ops : List device.Op) (st : device.ManagerState),
    device.wf st → device.wf (device.run st ops)
  | [], _, h => h
  | op :: ops, st, h => device.wf_run ops (device.step st op).1 (device.wf_step st op h)

/-- findUnique only ever returns a device that is in the Registry. -/
theorem device.findUnique_found_mem (r : device.Registry) (id : device.ID)
    (d : device.Device) (h : device.findUnique r id = .found d) : d ∈ r := by
  unfold device.findUnique at h
  rcases hf : r.filter (fun x => x.id == id) with _ | ⟨a, t⟩
  · rw [hf] at h
    have h2 : device.FindResult.notFound = .found d := h
    cases h2
  · rcases t with _ | ⟨b, t2⟩
    · rw [hf] at h
      have h2 : device.FindResult.found a = .found d := h
      injection h2 with h3
      subst h3
      have hmem : a ∈ r.filter (fun x => x.id == id) := by
        rw [hf]; exact List.mem_cons_self a []
      exact List.mem_of_mem_filter hmem
    · rw [hf] at h
      have h2 : device.FindResult.nonUnique = .found d := h
      cases h2

/-- A Disconnect event fired by a step carries a device that is already
closed and whose instance key is below the counter and gone from the
post-step Registry. -/
theorem device.step_disconnect_event (st : device.ManagerState) (op : device.Op)
    (hwf : device.wf st) (e : device.Event)
    (he : e ∈ (device.step st op).2) (hd : e.etype = .Disconnect) :
    e.device.closed = true
    ∧ e.device.devKey < (device.step st op).1.nextKey
    ∧ e.device.devKey ∉ (device.step st op).1.registry.map (fun d => d.devKey) := by
  obtain ⟨hlt, hnodup, _⟩ := hwf
  cases op with
  | connectOp ctxID factory =>
      cases ctxID with
      | none => cases he
      | some id =>
          cases factory with
          | error err => cases he
          | ok c =>
              have he2 := List.mem_singleton.mp he
              rw [he2] at hd
              cases hd
  | disconnectOp id =>
      obtain ⟨d0, hd0, rfl⟩ := List.mem_map.mp he
      refine ⟨rfl, hlt d0 (List.mem_of_mem_filter hd0), ?_⟩
      intro hmem
      rcases List.mem_map.mp hmem with ⟨d1, hd1, hk⟩
      have heq : d1 = d0 :=
        List.inj_on_of_nodup_map hnodup
          (List.mem_of_mem_filter hd1) (List.mem_of_mem_filter hd0) hk
      have hp0 := (List.mem_filter.mp hd0).2
      have hp1 := (List.mem_filter.mp hd1).2
      rw [heq] at hp1
      simp [hp0] at hp1
  | disconnectIfOp pred =>
      obtain ⟨d0, hd0, rfl⟩ := List.mem_map.mp he
      refine ⟨rfl, hlt d0 (List.mem_of_mem_filter hd0), ?_⟩
      intro hmem
      rcases List.mem_map.mp hmem with ⟨d1, hd1, hk⟩
      have heq : d1 = d0 :=
        List.inj_on_of_nodup_map hnodup
          (List.mem_of_mem_filter hd1) (List.mem_of_mem_filter hd0) hk
      have hp0 := (List.mem_filter.mp hd0).2
      have hp1 := (List.mem_filter.mp hd1).2
      rw [heq] at hp1
      simp [hp0] at hp1

/-- C6: a Disconnect event never carries an open Device — its device already
reports Closed() = true and has already been removed from the Registry; in
every state reachable afterwards it never reappears (no subsequent Route's
findUnique can return it), and the closed flag is one-way: every device a
reachable Registry holds is open, so a closed device never transitions back
to an open registered one. -/
theorem manager_disconnect_event_terminal (st : device.ManagerState)
    (op : device.Op) (ops : List device.Op) (hwf : device.wf st)
    (e : device.Event) (he : e ∈ (device.step st op).2)
    (hd : e.etype = device.EventType.Disconnect) :
    e.device.closed = true
    ∧ e.device.devKey ∉ (device.step st op).1.registry.map (fun d => d.devKey)
    ∧ e.device.devKey
        ∉ (device.run (device.step st op).1 ops).registry.map (fun d => d.devKey)
    ∧ (∀ id, device.findUnique
        (device.run (device.step st op).1 ops).registry id ≠ .found e.device)
    ∧ (∀ d ∈ (device.run (device.step st op).1 ops).registry, d.closed = false) := by
  obtain ⟨hc, hklt, hkout⟩ := device.step_disconnect_event st op hwf e he hd
  have habs : e.device.devKey
      ∉ (device.run (device.step st op).1 ops).registry.map (fun d => d.devKey) :=
    device.run_key_absent e.device.devKey ops (device.step st op).1 hklt hkout
  refine ⟨hc, hkout, habs, ?_, ?_⟩
  · intro id hfu
    exact habs (List.mem_map.mpr
      ⟨e.device, device.findUnique_found_mem _ id e.device hfu, rfl⟩)
  · exact (device.wf_run ops (device.step st op).1 (device.wf_step st op hwf)).2.2

/-- C6 witness: disconnecting the only registered device fires a Disconnect
event whose device is closed and absent from the post-step Registry, and it
stays absent after a further Connect of a different device. -/
theorem manager_disconnect_event_terminal_witness :
    ({ etype := .Disconnect,
       device := { id := "mac:112233445566", conn := { handle := "c1" },
                   devKey := 0, closed := true, pendingPong := 0 } } :
        device.Event).device.closed = true
    ∧ ({ etype := .Disconnect,
         device := { id := "mac:112233445566", conn := { handle := "c1" },
                     devKey := 0, closed := true, pendingPong := 0 } } :
          device.Event).device.devKey
        ∉ (device.step
            { registry :=
                [{ id := "mac:112233445566", conn := { handle := "c1" },
                   devKey := 0, closed := false, pendingPong := 0 }],
              nextKey := 1 }
            (.disconnectOp "mac:112233445566")).1.registry.map (fun d => d.devKey)
    ∧ ({ etype := .Disconnect,
         device := { id := "mac:112233445566", conn := { handle := "c1" },
                     devKey := 0, closed := true, pendingPong := 0 } } :
          device.Event).device.devKey
        ∉ (device.run
            (device.step
              { registry :=
                  [{ id := "mac:112233445566", conn := { handle := "c1" },
                     devKey := 0, closed := false, pendingPong := 0 }],
                nextKey := 1 }
              (.disconnectOp "mac:112233445566")).1
            [.connectOp (some "mac:FE881212CDCD") (.ok { handle := "c2" })]).registry.map
            (fun d => d.devKey) :=
  ⟨(manager_disconnect_event_terminal
      { registry :=
          [{ id := "mac:112233445566", conn := { handle := "c1" },
             devKey := 0, closed := false, pendingPong := 0 }],
        nextKey := 1 }
      (.disconnectOp "mac:112233445566")
      [.connectOp (some "mac:FE881212CDCD") (.ok { handle := "c2" })]
      (by decide)
      { etype := .Disconnect,
        device := { id := "mac:112233445566", conn := { handle := "c1" },
                    devKey := 0, closed := true, pendingPong := 0 } }
      (by decide) rfl).1,
   (manager_disconnect_event_terminal
      { registry :=
          [{ id := "mac:112233445566", conn := { handle := "c1" },
             devKey := 0, closed := false, pendingPong := 0 }],
        nextKey := 1 }
      (.disconnectOp "mac:112233445566")
      [.connectOp (some "mac:FE881212CDCD") (.ok { handle := "c2" })]
      (by decide)
      { etype := .Disconnect,
        device := { id := "mac:112233445566", conn := { handle := "c1" },
                    devKey := 0, closed := true, pendingPong := 0 } }
      (by decide) rfl).2.1,
   (manager_disconnect_event_terminal
      { registry :=
          [{ id := "mac:112233445566", conn := { handle := "c1" },
             devKey := 0, closed := false, pendingPong := 0 }],
        nextKey := 1 }
      (.disconnectOp "mac:112233445566")
      [.connectOp (some "mac:FE881212CDCD") (.ok { handle := "c2" })]
      (by decide)
      { etype := .Disconnect,
        device := { id := "mac:112233445566", conn := { handle := "c1" },
                    devKey := 0, closed := true, pendingPong := 0 } }
      (by decide) rfl).2.2.1⟩
